import Mathlib

/-!
Verification of the texture-layout engine (the tex_layout family of
functions): a shallow embedding of the pipeline that computes the physical
memory layout of a GPU texture resource, together with proofs of the
specified properties.

Machine integers of the source are modelled as Nat: every quantity involved
is non-negative, and the checks of interest (the 2 GiB maximum-size check,
the mappable-aperture check) are carried out with divisions that do not
overflow.
-/

namespace Ilo

/-- Alignment helper, the align(value, alignment) macro of the driver
utilities (external to the sources): rounds value up to the next multiple
of alignment.  The macro uses a bitmask and requires a power of two; the
division form below agrees with it for every power-of-two alignment and is
total. -/
def align (value alignment : Nat) : Nat :=
  (value + alignment - 1) / alignment * alignment

/-- Mip-minification helper, u_minify of the driver utilities (external to
the sources): halves a dimension per level, never going below 1. -/
def u_minify (value levels : Nat) : Nat :=
  max (value >>> levels) 1

/-- Pixel formats appearing in the switches of the layout engine, plus
representative color formats covering the block-size classes (4, 8, 12 and
16 bytes per pixel) the tiling selector distinguishes. -/
inductive PipeFormat where
  | s8_uint
  | z16_unorm
  | z24_unorm_s8_uint
  | z24x8_unorm
  | z32_float_s8x24_uint
  | z32_float
  | etc1_rgb8
  | r8g8b8x8_unorm
  | b8g8r8a8_unorm
  | r32g32b32_float
  | r32g32b32a32_float
  | dxt1_rgb
deriving DecidableEq

/-- Modelled from the spec: block width of one addressable storage unit,
1 by 1 for simple formats and larger for compressed formats
(util_format_get_blockwidth, external to the sources). -/
def util_format_get_blockwidth : PipeFormat → Nat
  | .etc1_rgb8 => 4
  | .dxt1_rgb => 4
  | _ => 1

/-- Modelled from the spec: block height of one addressable storage unit
(util_format_get_blockheight, external to the sources). -/
def util_format_get_blockheight : PipeFormat → Nat
  | .etc1_rgb8 => 4
  | .dxt1_rgb => 4
  | _ => 1

/-- Modelled from the spec: byte size of one block
(util_format_get_blocksize, external to the sources). -/
def util_format_get_blocksize : PipeFormat → Nat
  | .s8_uint => 1
  | .z16_unorm => 2
  | .z24_unorm_s8_uint => 4
  | .z24x8_unorm => 4
  | .z32_float_s8x24_uint => 8
  | .z32_float => 4
  | .etc1_rgb8 => 8
  | .r8g8b8x8_unorm => 4
  | .b8g8r8a8_unorm => 4
  | .r32g32b32_float => 12
  | .r32g32b32a32_float => 16
  | .dxt1_rgb => 8

/-- Modelled from the spec: compressed-format flag
(util_format_is_compressed, external to the sources). -/
def util_format_is_compressed : PipeFormat → Bool
  | .etc1_rgb8 => true
  | .dxt1_rgb => true
  | _ => false

/-- Modelled from the spec: whether the format carries a depth channel
(util_format_has_depth over the format description, external to the
sources). -/
def util_format_has_depth : PipeFormat → Bool
  | .z16_unorm => true
  | .z24_unorm_s8_uint => true
  | .z24x8_unorm => true
  | .z32_float_s8x24_uint => true
  | .z32_float => true
  | _ => false

/-- Modelled from the spec: whether the format carries a stencil channel
(util_format_has_stencil over the format description, external to the
sources). -/
def util_format_has_stencil : PipeFormat → Bool
  | .s8_uint => true
  | .z24_unorm_s8_uint => true
  | .z32_float_s8x24_uint => true
  | _ => false

/-- Resource target shapes (pipe_texture_target). -/
inductive PipeTarget where
  | buffer
  | tex_1d
  | tex_2d
  | tex_3d
  | cube
  | rect
  | tex_1d_array
  | tex_2d_array
  | cube_array
deriving DecidableEq

/-- Hardware tiling modes (intel_tiling_mode). -/
inductive IntelTiling where
  | NONE
  | X
  | Y
deriving DecidableEq

/-- Bit of a tiling mode inside a tiling bitmask (1 shifted by the mode's
enumeration value). -/
def tilingBit : IntelTiling → Nat
  | .NONE => 1
  | .X => 2
  | .Y => 4

/-- Usage and binding flags of a resource (the PIPE_BIND flags the layout
engine reads; mcs stands for the ILO_BIND_MCS alias of PIPE_BIND_CUSTOM). -/
structure PipeBind where
  scanout : Bool
  cursor : Bool
  linear : Bool
  mcs : Bool
  depth_stencil : Bool
  render_target : Bool
  sampler_view : Bool

/-- Resource descriptor (the fields of pipe_resource the layout engine
reads).  usage_staging models usage == PIPE_USAGE_STAGING and
flag_map_persistent models flags and PIPE_RESOURCE_FLAG_MAP_PERSISTENT. -/
structure PipeResource where
  target : PipeTarget
  format : PipeFormat
  width0 : Nat
  height0 : Nat
  depth0 : Nat
  last_level : Nat
  array_size : Nat
  nr_samples : Nat
  bind : PipeBind
  usage_staging : Bool
  flag_map_persistent : Bool

/-- Capability profile: dev.gen holds the generation in hundredths as the
ILO_GEN macro encodes it (600, 700, 750), and debug_nohiz models the
ILO_DEBUG_NOHIZ bit of the global debug-override word. -/
structure IloDev where
  gen : Nat
  debug_nohiz : Bool

/-- Padded dimensions of one mip level. -/
structure LevelDims where
  w : Nat
  h : Nat
  d : Nat
deriving DecidableEq

/-- The layout descriptor (struct tex_layout).  The per-level array of the
source (zero-initialized by memset, then written for the configured
levels) is modelled as a total function defaulting to zeroes, and the
caller-owned slice-offset storage as a function from level and slice index
to the recorded x and y offsets. -/
structure TexLayout where
  dev : IloDev
  templ : PipeResource
  has_depth : Bool
  has_stencil : Bool
  hiz : Bool
  separate_stencil : Bool
  format : PipeFormat
  block_width : Nat
  block_height : Nat
  block_size : Nat
  compressed : Bool
  tiling : IntelTiling
  valid_tilings : Nat
  array_spacing_full : Bool
  interleaved : Bool
  levels : Nat → LevelDims
  slices : Nat → Nat → Nat × Nat
  align_i : Nat
  align_j : Nat
  qpitch : Nat
  width : Nat
  height : Nat
  bo_stride : Nat
  bo_height : Nat

/-- Maximum surface size in bytes: 2 GiB for all products and surface
types. -/
def max_resource_size : Nat := 2 ^ 31

/-- Mappable-aperture budget used by the sizing fallback: 256 MiB. -/
def mappable_gtt_size : Nat := 256 * 1024 * 1024

/-- The zero-initialized layout accumulator produced by the memset at the
start of tex_layout_init, with dev and templ installed.  The format field
is given the logical format as a placeholder: the memset leaves it at
enumeration value zero and tex_layout_init_format overwrites it before any
stage reads it. -/
def tex_layout_start (t : PipeResource) (d : IloDev) : TexLayout where
  dev := d
  templ := t
  has_depth := false
  has_stencil := false
  hiz := false
  separate_stencil := false
  format := t.format
  block_width := 0
  block_height := 0
  block_size := 0
  compressed := false
  tiling := .NONE
  valid_tilings := 0
  array_spacing_full := false
  interleaved := false
  levels := fun _ => ⟨0, 0, 0⟩
  slices := fun _ _ => (0, 0)
  align_i := 0
  align_j := 0
  qpitch := 0
  width := 0
  height := 0
  bo_stride := 0
  bo_height := 0

/-- Stage 1, tex_layout_init_hiz: depth/stencil channels, the HiZ
auxiliary-buffer decision, and the separate-stencil decision. -/
def tex_layout_init_hiz (l : TexLayout) : TexLayout :=
  let t := l.templ
  let hasD := util_format_has_depth t.format
  let hasS := util_format_has_stencil t.format
  let hiz0 : Bool := !t.usage_staging
  let hiz1 : Bool :=
    if l.dev.gen = 600 ∧ (1 ≤ t.last_level ∨ 1 < t.array_size ∨ 1 < t.depth0)
    then false else hiz0
  let hiz2 : Bool := if l.dev.debug_nohiz then false else hiz1
  let hizF : Bool := if hasD then hiz2 else false
  let sep : Bool :=
    if hasD ∧ hasS then (if 700 ≤ l.dev.gen then true else hizF) else false
  let hasSF : Bool := if sep then false else hasS
  { l with
    has_depth := hasD
    has_stencil := hasSF
    hiz := hizF
    separate_stencil := sep }

/-- Stage 2, tex_layout_init_format: resolve the physical format and
derive the block parameters. -/
def tex_layout_init_format (l : TexLayout) : TexLayout :=
  let format :=
    match l.templ.format with
    | .etc1_rgb8 => PipeFormat.r8g8b8x8_unorm
    | .z24_unorm_s8_uint =>
        if l.separate_stencil then PipeFormat.z24x8_unorm else l.templ.format
    | .z32_float_s8x24_uint =>
        if l.separate_stencil then PipeFormat.z32_float else l.templ.format
    | f => f
  { l with
    format := format
    block_width := util_format_get_blockwidth format
    block_height := util_format_get_blockheight format
    block_size := util_format_get_blocksize format
    compressed := util_format_is_compressed format }

/-- Bitmask of tiling modes legal for the resource's binding flags (the
restriction chain of tex_layout_init_tiling, before the heuristics).
Masks live in the low three bits; clearing a mode is masking with the
three-bit complement. -/
def tex_layout_valid_tilings (l : TexLayout) : Nat :=
  let t := l.templ
  let v : Nat := 7
  let v := if t.bind.scanout then v &&& 2 else v
  let v := if t.bind.cursor ∨ t.bind.linear then v &&& 1 else v
  let v := if t.bind.mcs then v &&& 4 else v
  let v :=
    if t.bind.depth_stencil then
      if l.format = .s8_uint then v &&& 1 else v &&& 4
    else v
  let v :=
    if t.bind.render_target ∧ l.block_size = 16 then v &&& (7 ^^^ 4) else v
  let v :=
    if t.bind.render_target ∧ 700 ≤ l.dev.gen ∧ l.block_size = 12
    then v &&& (7 ^^^ 4) else v
  v

/-- Small-surface heuristics and the prefer-linear rule of
tex_layout_init_tiling, applied to the legal-tiling mask v. -/
def tex_layout_heuristic_tilings (l : TexLayout) (v : Nat) : Nat :=
  let t := l.templ
  if t.bind.render_target ∨ t.bind.sampler_view then
    let v :=
      if t.width0 < 64 ∧ v &&& (7 ^^^ 2) ≠ 0 then v &&& (7 ^^^ 2) else v
    let v :=
      if (t.width0 < 32 ∨ t.height0 < 16) ∧ (t.width0 < 16 ∨ t.height0 < 32) ∧
         v &&& (7 ^^^ 4) ≠ 0
      then v &&& (7 ^^^ 4) else v
    v
  else
    if v &&& 1 ≠ 0 then v &&& 1 else v

/-- Stage 3, tex_layout_init_tiling: store the legal mask and choose the
preferred mode (Y over X over linear) among the modes the heuristics kept.
The source asserts the legal mask is non-empty. -/
def tex_layout_init_tiling (l : TexLayout) : TexLayout :=
  let valid := tex_layout_valid_tilings l
  let v := tex_layout_heuristic_tilings l valid
  { l with
    valid_tilings := valid
    tiling :=
      if v &&& 4 ≠ 0 then IntelTiling.Y
      else if v &&& 2 ≠ 0 then IntelTiling.X
      else IntelTiling.NONE }

/-- Stage 4, tex_layout_init_spacing: sample interleaving and array
spacing.  The source asserts multisampled non-depth resources on the newer
tiers are not mipmapped. -/
def tex_layout_init_spacing (l : TexLayout) : TexLayout :=
  let t := l.templ
  { l with
    interleaved :=
      if 700 ≤ l.dev.gen then
        (if l.has_depth ∨ l.has_stencil then true else false)
      else true
    array_spacing_full :=
      if 700 ≤ l.dev.gen then
        (if l.has_depth ∨ l.has_stencil then true
         else decide (0 < t.last_level))
      else decide (l.format ≠ .s8_uint) }

/-- Padded dimensions of mip level lv: standard minification, padding to
the block dimensions, then the fixed sample-interleave inflation table.
The source asserts sample counts outside the table are unsupported and
leaves the dimensions unchanged for them. -/
def tex_layout_level_dims (l : TexLayout) (lv : Nat) : LevelDims :=
  let t := l.templ
  let w := align (u_minify t.width0 lv) l.block_width
  let h := align (u_minify t.height0 lv) l.block_height
  let wh : Nat × Nat :=
    if l.interleaved then
      match t.nr_samples with
      | 2 => (align w 2 * 2, h)
      | 4 => (align w 2 * 2, align h 2 * 2)
      | 8 => (align w 2 * 4, align h 2 * 2)
      | 16 => (align w 2 * 4, align h 2 * 4)
      | _ => (w, h)
    else (w, h)
  ⟨wh.1, wh.2, u_minify t.depth0 lv⟩

/-- Index of the last level tex_layout_init_levels fills in: one synthetic
extra level is added when a full-spacing array resource has a single level,
because the qpitch formula needs two levels. -/
def tex_layout_last_level (l : TexLayout) : Nat :=
  if l.templ.last_level = 0 ∧ 1 < l.templ.array_size ∧ l.array_spacing_full
  then 1 else l.templ.last_level

/-- Stage 5, tex_layout_init_levels: fill in the per-level padded
dimensions; levels beyond the last stay at the memset zeroes. -/
def tex_layout_init_levels (l : TexLayout) : TexLayout :=
  { l with
    levels := fun lv =>
      if lv ≤ tex_layout_last_level l then tex_layout_level_dims l lv
      else ⟨0, 0, 0⟩ }

/-- Stage 6, tex_layout_init_alignments: the horizontal and vertical
alignment units.  The source asserts the results are powers of two and
multiples of the block dimensions. -/
def tex_layout_init_alignments (l : TexLayout) : TexLayout :=
  let t := l.templ
  let ij : Nat × Nat :=
    if l.compressed then (l.block_width, l.block_height)
    else if l.has_depth ∨ l.has_stencil then
      if 700 ≤ l.dev.gen then
        match l.format with
        | .z16_unorm => (8, 4)
        | .s8_uint => (8, 8)
        | _ => (4, 4)
      else
        match l.format with
        | .s8_uint => (4, 2)
        | _ => (4, 4)
    else
      (4,
       if 1 < t.nr_samples ∨
          (700 ≤ l.dev.gen ∧ l.tiling = IntelTiling.Y ∧ t.bind.render_target)
       then 4 else 2)
  { l with align_i := ij.1, align_j := ij.2 }

/-- Stage 7, tex_layout_init_qpitch: vertical distance between
consecutive array slices.  Zero (the memset value) when the array size is
at most one; the aligned height of level 0 for compact spacing; the
two-level PRM formula with the fixed tail constant for full spacing, plus
the documented gen6 multisample erratum. -/
def tex_layout_init_qpitch (l : TexLayout) : TexLayout :=
  let t := l.templ
  { l with
    qpitch :=
      if t.array_size ≤ 1 then l.qpitch
      else if l.array_spacing_full = false then align (l.levels 0).h l.align_j
      else
        align (l.levels 0).h l.align_j + align (l.levels 1).h l.align_j +
          (if 700 ≤ l.dev.gen then 12 else 11) * l.align_j +
          (if l.dev.gen = 600 ∧ 1 < t.nr_samples ∧ t.height0 % 4 = 1
           then 4 else 0) }

/-- tex_layout_init: run the seven initialization stages in dependency
order, then apply the persistent-mapping compatibility check.  The boolean
result is the success flag; the layout is returned in either case (on
failure the caller must not use it). -/
def tex_layout_init (t : PipeResource) (d : IloDev) : TexLayout × Bool :=
  let l :=
    tex_layout_init_qpitch (tex_layout_init_alignments (tex_layout_init_levels
      (tex_layout_init_spacing (tex_layout_init_tiling (tex_layout_init_format
        (tex_layout_init_hiz (tex_layout_start t d)))))))
  (l,
   if t.flag_map_persistent ∧
      (l.separate_stencil ∨ l.format = PipeFormat.s8_uint ∨ l.format ≠ t.format)
   then false else true)

/-- Horizontal padding unit of the common padding pass tex_layout_align. -/
def tex_align_w (l : TexLayout) : Nat :=
  let aw : Nat := 1
  let aw := if l.templ.bind.sampler_view then max aw l.align_i else aw
  if l.hiz then max aw 8 else aw

/-- Vertical padding unit of the common padding pass tex_layout_align. -/
def tex_align_h (l : TexLayout) : Nat :=
  let ah : Nat := 1
  let ah := if l.templ.bind.sampler_view then max ah l.align_j else ah
  let ah :=
    if l.templ.bind.sampler_view ∧ l.compressed then max ah (l.align_j * 2)
    else ah
  let ah := if l.templ.bind.render_target then max ah 2 else ah
  if l.hiz then max ah 4 else ah

/-- Extra bottom padding rows of tex_layout_align (two rows for sampled
cube maps). -/
def tex_pad_h (l : TexLayout) : Nat :=
  if l.templ.bind.sampler_view ∧ l.templ.target = PipeTarget.cube then 2 else 0

/-- Common padding pass tex_layout_align: extend the plane to the padding
units, with the cube-map rows and the 8 by 4 HiZ processing block. -/
def tex_layout_align (l : TexLayout) : TexLayout :=
  { l with
    width := align l.width (tex_align_w l)
    height := align (l.height + tex_pad_h l) (tex_align_h l) }

/-- Position at which the 2D packer places mip level lv: the running
(level_x, level_y) cursor of the tex_layout_2d loop at the start of
iteration lv (x advances after level 1, y advances after every other
level). -/
def level_pos (l : TexLayout) : Nat → Nat × Nat
  | 0 => (0, 0)
  | lv + 1 =>
    let p := level_pos l lv
    if lv = 1 then (p.1 + align (l.levels 1).w l.align_i, p.2)
    else (p.1, p.2 + align (l.levels lv).h l.align_j)

/-- Running plane width of the 2D packer after covering levels 0 to n
(the monolithic-extent updates of the loop). -/
def pack2dW (l : TexLayout) : Nat → Nat
  | 0 => max l.width ((level_pos l 0).1 + (l.levels 0).w)
  | n + 1 => max (pack2dW l n) ((level_pos l (n + 1)).1 + (l.levels (n + 1)).w)

/-- Running plane height of the 2D packer after covering levels 0 to n. -/
def pack2dH (l : TexLayout) : Nat → Nat
  | 0 => max l.height ((level_pos l 0).2 + (l.levels 0).h)
  | n + 1 => max (pack2dH l n) ((level_pos l (n + 1)).2 + (l.levels (n + 1)).h)

/-- tex_layout_2d: the 2D plane packer.  Slice offsets are recorded for
every configured level and array slice (the source writes them only when
the caller supplied slice storage; the recorded values are the same).
After the per-level loop the height is extended by qpitch times the
remaining slice count, and the common padding pass runs. -/
def tex_layout_2d (l : TexLayout) : TexLayout :=
  let t := l.templ
  let w := pack2dW l t.last_level
  let h := pack2dH l t.last_level
  let num_slices :=
    t.array_size *
      (if 1 < t.nr_samples ∧ l.interleaved = false then t.nr_samples else 1)
  tex_layout_align
    { l with
      width := w
      height := h + l.qpitch * (num_slices - 1)
      slices := fun lv s =>
        if lv ≤ t.last_level ∧ s < t.array_size then
          ((level_pos l lv).1, (level_pos l lv).2 + l.qpitch * s)
        else (0, 0) }

/-- Number of slice rows level lv of a 3D resource occupies: its depth
divided into rows of 2 to the lv slices, rounded up. -/
def slice_rows (l : TexLayout) (lv : Nat) : Nat :=
  ((l.levels lv).d + (1 <<< lv) - 1) / (1 <<< lv)

/-- Vertical position at which the 3D packer starts level lv (the running
level_y cursor of the tex_layout_3d loop). -/
def pos3dY (l : TexLayout) : Nat → Nat
  | 0 => 0
  | lv + 1 =>
    pos3dY l lv + slice_rows l lv * align (l.levels lv).h l.align_j

/-- Running plane width of the 3D packer after covering levels 0 to n
(each level contributes its rightmost slice). -/
def pack3dW (l : TexLayout) : Nat → Nat
  | 0 =>
    max l.width
      ((min (1 <<< 0) (l.levels 0).d - 1) * align (l.levels 0).w l.align_i +
        (l.levels 0).w)
  | n + 1 =>
    max (pack3dW l n)
      ((min (1 <<< (n + 1)) (l.levels (n + 1)).d - 1) *
          align (l.levels (n + 1)).w l.align_i + (l.levels (n + 1)).w)

/-- tex_layout_3d: the 3D plane packer.  Depth slices of level lv are
packed 2 to the lv per row; the final height is fixed by the last level's
row, and the common padding pass runs. -/
def tex_layout_3d (l : TexLayout) : TexLayout :=
  let t := l.templ
  let last := t.last_level
  tex_layout_align
    { l with
      width := pack3dW l last
      height :=
        pos3dY l (last + 1) - align (l.levels last).h l.align_j +
          (l.levels last).h
      slices := fun lv s =>
        if lv ≤ last ∧ s < (l.levels lv).d then
          ((s % (1 <<< lv)) * align (l.levels lv).w l.align_i,
           pos3dY l lv + (s / (1 <<< lv)) * align (l.levels lv).h l.align_j)
        else (0, 0) }

/-- Modelled from the spec: the caller of the layout engine (external to
the sources) selects the packing algorithm by resource dimensionality,
the 3D packer for 3D targets and the 2D packer otherwise. -/
def tex_layout_pack (l : TexLayout) : TexLayout :=
  if l.templ.target = PipeTarget.tex_3d then tex_layout_3d l
  else tex_layout_2d l

/-- Conversion of the padded plane into byte stride and row count at the
top of tex_layout_calculate_bo_size. -/
def bo_init (l : TexLayout) : TexLayout :=
  { l with
    bo_stride := l.width / l.block_width * l.block_size
    bo_height := l.height / l.block_height }

/-- The gen-7.5 64-byte linear-padding statement of the sizing loop: it
adds trailing rows to the bo_height field.  In this source the rounding
locals are captured before this statement runs and the field is
overwritten with the rounded pre-padding local at the end of the
iteration, so the increment never reaches the final row count (a dead
write, modelled for fidelity). -/
def bo_pad_linear (l : TexLayout) : TexLayout :=
  { l with
    bo_height :=
      if 750 ≤ l.dev.gen ∧ l.templ.bind.sampler_view ∧
         l.tiling = IntelTiling.NONE then
        l.bo_height + (64 + l.bo_stride - 1) / l.bo_stride
      else l.bo_height }

/-- Tile granularity of the chosen tiling mode: 512 by 8 for mode X, 128
by 32 for mode Y, and for linear surfaces 64 by 2, except the stencil-only
format which is aligned to the 64 by 64 W-tile shape. -/
def bo_tile_align (l : TexLayout) : Nat × Nat :=
  match l.tiling with
  | .X => (512, 8)
  | .Y => (128, 32)
  | .NONE => if l.format = PipeFormat.s8_uint then (64, 64) else (64, 2)

/-- Stride and row count one sizing iteration stores: the tile-granularity
rounding of the locals captured at the top of the iteration, before the
linear-padding statement mutates the field. -/
def bo_pass_dims (l : TexLayout) : Nat × Nat :=
  (align l.bo_stride (bo_tile_align l).1,
   align l.bo_height (bo_tile_align l).2)

/-- One iteration of the sizing loop of tex_layout_calculate_bo_size.
The locals w and h are captured from the current stride and row count
before the linear-padding statement mutates the field.  When a tiled
surface fails the conservative mappable-aperture check and linear tiling
is legal, the tiling mode is switched to linear and the boolean result
requests a retry; otherwise (including the warn-and-proceed case where
linear is not legal) the rounded locals are stored, overwriting the
padding write. -/
def bo_pass (l : TexLayout) : TexLayout × Bool :=
  let w := align l.bo_stride (bo_tile_align l).1
  let h := align l.bo_height (bo_tile_align l).2
  let lp := bo_pad_linear l
  if l.tiling ≠ IntelTiling.NONE ∧ mappable_gtt_size / w / 4 < h ∧
     l.valid_tilings &&& 1 ≠ 0 then
    ({ lp with tiling := IntelTiling.NONE }, true)
  else
    ({ lp with bo_stride := w, bo_height := h }, false)

/-- tex_layout_calculate_bo_size: initialize stride and row count, run the
sizing loop (which executes at most twice: a retry always has linear
tiling and never retries again), and check the maximum surface size. -/
def tex_layout_calculate_bo_size (l : TexLayout) : TexLayout × Bool :=
  let p := bo_pass (bo_init l)
  let l2 := if p.2 then (bo_pass p.1).1 else p.1
  (l2, decide (l2.bo_height ≤ max_resource_size / l2.bo_stride))

/-- ComputeLayout: the entry contract of the engine, tex_layout_init
followed by the plane packer and allocation sizing as the caller (external
to the sources, modelled from the spec) composes them.  The boolean is the
success flag. -/
def ComputeLayout (t : PipeResource) (d : IloDev) : TexLayout × Bool :=
  let r := tex_layout_init t d
  if r.2 then tex_layout_calculate_bo_size (tex_layout_pack r.1)
  else (r.1, false)

/-! Basic facts about the rounding helper and the format tables. -/

theorem le_align (v a : Nat) (ha : 0 < a) : v ≤ align v a := by
  have h1 := Nat.div_add_mod' (v + a - 1) a
  have h2 := Nat.mod_lt (v + a - 1) ha
  unfold align
  omega

theorem align_ge (v a : Nat) (hv : 0 < v) (ha : 0 < a) : a ≤ align v a := by
  have hq : 1 ≤ (v + a - 1) / a := (Nat.one_le_div_iff ha).2 (by omega)
  have h := Nat.mul_le_mul hq (Nat.le_refl a)
  unfold align
  omega

theorem u_minify_pos (v lv : Nat) : 0 < u_minify v lv := by
  unfold u_minify
  omega

theorem blockwidth_pos (f : PipeFormat) : 0 < util_format_get_blockwidth f := by
  cases f <;> decide

theorem blockheight_pos (f : PipeFormat) : 0 < util_format_get_blockheight f := by
  cases f <;> decide

theorem blocksize_pos (f : PipeFormat) : 0 < util_format_get_blocksize f := by
  cases f <;> decide

/-! Field-preservation facts: the packers and the sizing pass leave the
fields computed by the initialization stages untouched. -/

theorem pack_hiz (l : TexLayout) : (tex_layout_pack l).hiz = l.hiz := by
  unfold tex_layout_pack
  split <;> rfl

theorem pack_format (l : TexLayout) : (tex_layout_pack l).format = l.format := by
  unfold tex_layout_pack
  split <;> rfl

theorem pack_separate_stencil (l : TexLayout) :
    (tex_layout_pack l).separate_stencil = l.separate_stencil := by
  unfold tex_layout_pack
  split <;> rfl

theorem pack_block_width (l : TexLayout) :
    (tex_layout_pack l).block_width = l.block_width := by
  unfold tex_layout_pack
  split <;> rfl

theorem pack_block_size (l : TexLayout) :
    (tex_layout_pack l).block_size = l.block_size := by
  unfold tex_layout_pack
  split <;> rfl

theorem bo_pass_hiz (l : TexLayout) : (bo_pass l).1.hiz = l.hiz := by
  simp only [bo_pass]
  split <;> rfl

theorem bo_pass_format (l : TexLayout) : (bo_pass l).1.format = l.format := by
  simp only [bo_pass]
  split <;> rfl

theorem bo_pass_separate_stencil (l : TexLayout) :
    (bo_pass l).1.separate_stencil = l.separate_stencil := by
  simp only [bo_pass]
  split <;> rfl

theorem calc_bo_hiz (l : TexLayout) :
    (tex_layout_calculate_bo_size l).1.hiz = l.hiz := by
  simp only [tex_layout_calculate_bo_size]
  split <;> simp [bo_pass_hiz, bo_init]

theorem calc_bo_format (l : TexLayout) :
    (tex_layout_calculate_bo_size l).1.format = l.format := by
  simp only [tex_layout_calculate_bo_size]
  split <;> simp [bo_pass_format, bo_init]

theorem calc_bo_separate_stencil (l : TexLayout) :
    (tex_layout_calculate_bo_size l).1.separate_stencil =
      l.separate_stencil := by
  simp only [tex_layout_calculate_bo_size]
  split <;> simp [bo_pass_separate_stencil, bo_init]

/-! Concrete resources used by the scenario theorems and witnesses. -/

/-- Binding flags with every bit clear. -/
def noBindFlags : PipeBind :=
  { scanout := false, cursor := false, linear := false, mcs := false,
    depth_stencil := false, render_target := false, sampler_view := false }

/-- The 64 by 64 stencil-only depth/stencil resource of scenario 2. -/
def s8Templ : PipeResource :=
  { target := .tex_2d, format := .s8_uint, width0 := 64, height0 := 64,
    depth0 := 1, last_level := 0, array_size := 1, nr_samples := 1,
    bind := { noBindFlags with depth_stencil := true },
    usage_staging := false, flag_map_persistent := false }

/-- Generation tier 7 capability profile. -/
def gen7Dev : IloDev := { gen := 700, debug_nohiz := false }

/-- Generation tier 6 capability profile. -/
def gen6Dev : IloDev := { gen := 600, debug_nohiz := false }

/-- C7: for the 64 by 64 single-level single-layer stencil-only resource
on generation tier 7, the computation succeeds with tiling forced to
linear, alignment units 8 and 8, qpitch 0, a 64 by 64 plane, and a final
allocation of stride 64 and height 64. -/
theorem claim7_s8_scenario :
    (ComputeLayout s8Templ gen7Dev).2 = true ∧
    (ComputeLayout s8Templ gen7Dev).1.tiling = IntelTiling.NONE ∧
    (ComputeLayout s8Templ gen7Dev).1.align_i = 8 ∧
    (ComputeLayout s8Templ gen7Dev).1.align_j = 8 ∧
    (ComputeLayout s8Templ gen7Dev).1.qpitch = 0 ∧
    (ComputeLayout s8Templ gen7Dev).1.width = 64 ∧
    (ComputeLayout s8Templ gen7Dev).1.height = 64 ∧
    (ComputeLayout s8Templ gen7Dev).1.bo_stride = 64 ∧
    (ComputeLayout s8Templ gen7Dev).1.bo_height = 64 := by
  decide

/-- C9: for every depth-capable format, the auxiliary HiZ buffer ends up
disabled when the resource is staging-only, when the debug override forces
it off, or when the generation tier is 6 and the resource has more than
one mip level, more than one array layer, or depth greater than one. -/
theorem claim9_hiz_disabled (t : PipeResource) (d : IloDev)
    (hd : util_format_has_depth t.format = true)
    (hc : t.usage_staging = true ∨ d.debug_nohiz = true ∨
      (d.gen = 600 ∧
        (1 ≤ t.last_level ∨ 1 < t.array_size ∨ 1 < t.depth0))) :
    (ComputeLayout t d).1.hiz = false := by
  have key : (tex_layout_init t d).1.hiz = false := by
    simp only [tex_layout_init, tex_layout_init_qpitch,
      tex_layout_init_alignments, tex_layout_init_levels,
      tex_layout_init_spacing, tex_layout_init_tiling, tex_layout_init_format,
      tex_layout_init_hiz, tex_layout_start]
    rcases hc with h | h | h
    · simp [hd, h]
    · simp [hd, h]
    · rw [if_pos h]
      simp [hd]
  simp only [ComputeLayout]
  split
  · rw [calc_bo_hiz, pack_hiz]
    exact key
  · exact key

/-- The depth resource used to witness C9: staging usage on tier 7. -/
def c9Templ : PipeResource :=
  { target := .tex_2d, format := .z32_float, width0 := 16, height0 := 16,
    depth0 := 1, last_level := 0, array_size := 1, nr_samples := 1,
    bind := { noBindFlags with depth_stencil := true },
    usage_staging := true, flag_map_persistent := false }

theorem claim9_hiz_disabled_witness :
    util_format_has_depth c9Templ.format = true ∧
    c9Templ.usage_staging = true ∧
    (ComputeLayout c9Templ gen7Dev).1.hiz = false :=
  ⟨by decide, by decide,
   claim9_hiz_disabled c9Templ gen7Dev (by decide) (Or.inl (by decide))⟩

/-- A two-layer single-sample color resource: a counterexample to the
sample-count half of C4. -/
def c4Templ : PipeResource :=
  { target := .tex_2d, format := .b8g8r8a8_unorm, width0 := 4, height0 := 4,
    depth0 := 1, last_level := 0, array_size := 2, nr_samples := 1,
    bind := { noBindFlags with sampler_view := true },
    usage_staging := false, flag_map_persistent := false }

/-- C4, counterexample: a resource with sample count 1 (but two array
layers) computes qpitch 4, not 0 — the sample-count half of the claim is
false on the code, which zeroes qpitch only for array-layer count at most
one. -/
theorem claim4_counterexample :
    c4Templ.nr_samples = 1 ∧
    (tex_layout_init c4Templ gen7Dev).1.qpitch = 4 := by
  decide

/-- C4, amended: every resource descriptor with array-layer count 1
computes qpitch 0 (the sample-count clause of the claim does not hold and
is dropped). -/
theorem claim4_qpitch_zero (t : PipeResource) (d : IloDev)
    (h : t.array_size = 1) :
    (tex_layout_init t d).1.qpitch = 0 := by
  have h1 : t.array_size ≤ 1 := by omega
  simp [tex_layout_init, tex_layout_init_qpitch, tex_layout_init_alignments,
    tex_layout_init_levels, tex_layout_init_spacing, tex_layout_init_tiling,
    tex_layout_init_format, tex_layout_init_hiz, tex_layout_start, h1]

/-- A single-layer resource witnessing the amended C4. -/
def c4SingleTempl : PipeResource :=
  { c4Templ with array_size := 1 }

theorem claim4_qpitch_zero_witness :
    c4SingleTempl.array_size = 1 ∧
    (tex_layout_init c4SingleTempl gen7Dev).1.qpitch = 0 :=
  ⟨by decide, claim4_qpitch_zero c4SingleTempl gen7Dev (by decide)⟩

/-- Unfolding equation for the 2D packer's level cursor. -/
theorem level_pos_succ (l : TexLayout) (lv : Nat) :
    level_pos l (lv + 1) =
      if lv = 1 then
        ((level_pos l lv).1 + align (l.levels 1).w l.align_i,
         (level_pos l lv).2)
      else
        ((level_pos l lv).1,
         (level_pos l lv).2 + align (l.levels lv).h l.align_j) := rfl

/-- The layout of a 2D resource after initialization and 2D packing (the
composition C2 talks about). -/
def layout2d (t : PipeResource) (d : IloDev) : TexLayout :=
  tex_layout_2d (tex_layout_init t d).1

/-- An 8 by 8 two-level sampled color resource: a counterexample to C2. -/
def c2Templ : PipeResource :=
  { target := .tex_2d, format := .b8g8r8a8_unorm, width0 := 8, height0 := 8,
    depth0 := 1, last_level := 1, array_size := 1, nr_samples := 1,
    bind := { noBindFlags with sampler_view := true },
    usage_staging := false, flag_map_persistent := false }

/-- C2, counterexample: for the 8 by 8 two-level resource, the recorded
offset of mip level 1 is (0, 8) — directly below mip 0 — not to the right
of mip 0 at x = aligned width of level 0 with y = 0 as the claim states. -/
theorem claim2_counterexample :
    (layout2d c2Templ gen7Dev).slices 1 0 = (0, 8) ∧
    ¬((layout2d c2Templ gen7Dev).slices 1 0).1 =
        align ((layout2d c2Templ gen7Dev).levels 0).w
          (layout2d c2Templ gen7Dev).align_i ∧
    ¬((layout2d c2Templ gen7Dev).slices 1 0).2 = 0 := by
  refine ⟨by decide, by decide, by decide⟩

/-- C2, amended: in the 2D plane packer, mip level 1 is placed immediately
below mip level 0 (x offset 0, y offset level 0's height aligned to the
vertical unit); mip level 2 is placed immediately to the right of mip 1
(x offset level 1's width aligned to the horizontal unit, same y offset);
and every level from 3 onward keeps that x offset and stacks below the
previous level (y advances by the previous level's height aligned to the
vertical unit). -/
theorem claim2_mip_staircase (t : PipeResource) (d : IloDev)
    (_h2 : t.target = PipeTarget.tex_2d) (hm : 1 ≤ t.last_level)
    (ha : 0 < t.array_size) :
    (layout2d t d).slices 1 0 =
      (0, align ((layout2d t d).levels 0).h (layout2d t d).align_j) ∧
    (2 ≤ t.last_level →
      (layout2d t d).slices 2 0 =
        (align ((layout2d t d).levels 1).w (layout2d t d).align_i,
         align ((layout2d t d).levels 0).h (layout2d t d).align_j)) ∧
    (∀ lv, 3 ≤ lv → lv ≤ t.last_level →
      (layout2d t d).slices lv 0 =
        (((layout2d t d).slices (lv - 1) 0).1,
         ((layout2d t d).slices (lv - 1) 0).2 +
           align ((layout2d t d).levels (lv - 1)).h (layout2d t d).align_j)) := by
  have htempl : (tex_layout_init t d).1.templ = t := rfl
  have hs : ∀ lv s, lv ≤ t.last_level → s < t.array_size →
      (layout2d t d).slices lv s =
        ((level_pos (tex_layout_init t d).1 lv).1,
         (level_pos (tex_layout_init t d).1 lv).2 +
           (tex_layout_init t d).1.qpitch * s) := by
    intro lv s hl hsz
    simp only [layout2d, tex_layout_2d, tex_layout_align, htempl]
    rw [if_pos ⟨hl, hsz⟩]
  have hlev : (layout2d t d).levels = (tex_layout_init t d).1.levels := rfl
  have hai : (layout2d t d).align_i = (tex_layout_init t d).1.align_i := rfl
  have haj : (layout2d t d).align_j = (tex_layout_init t d).1.align_j := rfl
  simp only [hlev, hai, haj]
  refine ⟨?_, ?_, ?_⟩
  · rw [hs 1 0 hm ha]
    have p1 : level_pos (tex_layout_init t d).1 1 =
        (0, 0 + align ((tex_layout_init t d).1.levels 0).h
          (tex_layout_init t d).1.align_j) := rfl
    rw [p1]
    simp
  · intro h2lv
    rw [hs 2 0 h2lv ha]
    have p2 : level_pos (tex_layout_init t d).1 2 =
        (0 + align ((tex_layout_init t d).1.levels 1).w
          (tex_layout_init t d).1.align_i,
         0 + align ((tex_layout_init t d).1.levels 0).h
          (tex_layout_init t d).1.align_j) := rfl
    rw [p2]
    simp
  · intro lv h3 hle
    obtain ⟨n, hn2, rfl⟩ : ∃ n, 2 ≤ n ∧ lv = n + 1 :=
      ⟨lv - 1, by omega, by omega⟩
    simp only [Nat.add_sub_cancel]
    rw [hs (n + 1) 0 hle ha, hs n 0 (by omega) ha]
    rw [level_pos_succ, if_neg (by omega)]
    simp

/-- A 16 by 16 four-level sampled color resource witnessing the amended
C2. -/
def c2wTempl : PipeResource :=
  { c2Templ with width0 := 16, height0 := 16, last_level := 3 }

theorem claim2_mip_staircase_witness :
    (c2wTempl.target = PipeTarget.tex_2d ∧ 1 ≤ c2wTempl.last_level ∧
      0 < c2wTempl.array_size) ∧
    ((layout2d c2wTempl gen7Dev).slices 1 0 =
      (0, align ((layout2d c2wTempl gen7Dev).levels 0).h
        (layout2d c2wTempl gen7Dev).align_j) ∧
    (2 ≤ c2wTempl.last_level →
      (layout2d c2wTempl gen7Dev).slices 2 0 =
        (align ((layout2d c2wTempl gen7Dev).levels 1).w
          (layout2d c2wTempl gen7Dev).align_i,
         align ((layout2d c2wTempl gen7Dev).levels 0).h
          (layout2d c2wTempl gen7Dev).align_j)) ∧
    (∀ lv, 3 ≤ lv → lv ≤ c2wTempl.last_level →
      (layout2d c2wTempl gen7Dev).slices lv 0 =
        (((layout2d c2wTempl gen7Dev).slices (lv - 1) 0).1,
         ((layout2d c2wTempl gen7Dev).slices (lv - 1) 0).2 +
           align ((layout2d c2wTempl gen7Dev).levels (lv - 1)).h
             (layout2d c2wTempl gen7Dev).align_j))) :=
  ⟨⟨by decide, by decide, by decide⟩,
   claim2_mip_staircase c2wTempl gen7Dev (by decide) (by decide) (by decide)⟩

/-! Lower bounds on the allocation stride: the chain of facts behind C10
(and the well-definedness of the final size check in C1). -/

theorem bo_tile_align_w_ge (l : TexLayout) : 64 ≤ (bo_tile_align l).1 := by
  unfold bo_tile_align
  split
  · decide
  · decide
  · split <;> decide

theorem tex_align_w_pos (l : TexLayout) : 0 < tex_align_w l := by
  simp only [tex_align_w]
  split <;> split <;> omega

theorem align_width_ge (l : TexLayout) :
    l.width ≤ (tex_layout_align l).width :=
  le_align _ _ (tex_align_w_pos l)

/-- Outcome of one sizing iteration: either a retry with linear tiling
(possible only for a tiled surface with linear legal), or the rounded
dimensions. -/
theorem bo_pass_cases (l : TexLayout) :
    (bo_pass l = ({ bo_pad_linear l with tiling := IntelTiling.NONE }, true) ∧
      l.tiling ≠ IntelTiling.NONE ∧ l.valid_tilings &&& 1 ≠ 0) ∨
    bo_pass l =
      ({ bo_pad_linear l with
          bo_stride := (bo_pass_dims l).1
          bo_height := (bo_pass_dims l).2 }, false) := by
  simp only [bo_pass, bo_pass_dims]
  split
  case isTrue h => exact Or.inl ⟨rfl, h.1, h.2.2⟩
  case isFalse h => exact Or.inr rfl

theorem bo_pass_none_no_retry (l : TexLayout)
    (h : l.tiling = IntelTiling.NONE) : (bo_pass l).2 = false := by
  rcases bo_pass_cases l with ⟨_, hne, _⟩ | he
  · exact absurd h hne
  · rw [he]

theorem bo_pass_false_stride (l : TexLayout) (h0 : 0 < l.bo_stride)
    (hp : (bo_pass l).2 = false) : 64 ≤ (bo_pass l).1.bo_stride := by
  rcases bo_pass_cases l with ⟨he, _, _⟩ | he
  · rw [he] at hp
    simp at hp
  · rw [he]
    show 64 ≤ (bo_pass_dims l).1
    unfold bo_pass_dims
    have h1 : 0 < (bo_pad_linear l).bo_stride := h0
    have h2 : 64 ≤ (bo_tile_align (bo_pad_linear l)).1 := bo_tile_align_w_ge _
    exact le_trans h2 (align_ge _ _ h1 (by omega))

theorem calc_bo_stride_ge (l : TexLayout)
    (hbw : 0 < l.block_width) (hbs : 0 < l.block_size)
    (hw : l.block_width ≤ l.width) :
    64 ≤ (tex_layout_calculate_bo_size l).1.bo_stride := by
  have hs0 : 0 < (bo_init l).bo_stride := by
    show 0 < l.width / l.block_width * l.block_size
    have h1 : 1 ≤ l.width / l.block_width := (Nat.one_le_div_iff hbw).2 hw
    exact Nat.mul_pos h1 hbs
  simp only [tex_layout_calculate_bo_size]
  split
  case isTrue hp2 =>
    rcases bo_pass_cases (bo_init l) with ⟨he, _, _⟩ | he
    · rw [he]
      have htn : ({ bo_pad_linear (bo_init l) with
          tiling := IntelTiling.NONE } : TexLayout).tiling =
        IntelTiling.NONE := rfl
      have hs1 : 0 < ({ bo_pad_linear (bo_init l) with
          tiling := IntelTiling.NONE } : TexLayout).bo_stride := hs0
      exact bo_pass_false_stride _ hs1 (bo_pass_none_no_retry _ htn)
    · rw [he] at hp2
      simp at hp2
  case isFalse hp2 =>
    have hp2f : (bo_pass (bo_init l)).2 = false := by
      cases h : (bo_pass (bo_init l)).2
      · rfl
      · exact absurd h hp2
    exact bo_pass_false_stride _ hs0 hp2f

/-- The level-dimension calculator never shrinks a level below one block
in width. -/
theorem level_dims_w_ge (l : TexLayout) (lv : Nat) (h : 0 < l.block_width) :
    l.block_width ≤ (tex_layout_level_dims l lv).w := by
  have hw : l.block_width ≤ align (u_minify l.templ.width0 lv) l.block_width :=
    align_ge _ _ (u_minify_pos _ _) h
  have step : ∀ x k : Nat, 0 < k → x ≤ align x 2 * k := by
    intro x k hk
    exact le_trans (le_align x 2 (by omega)) (Nat.le_mul_of_pos_right _ hk)
  simp only [tex_layout_level_dims]
  split
  · split
    · exact le_trans hw (step _ _ (by omega))
    · exact le_trans hw (step _ _ (by omega))
    · exact le_trans hw (step _ _ (by omega))
    · exact le_trans hw (step _ _ (by omega))
    · exact hw
  · exact hw

/-- The pipeline state just before the level calculator runs. -/
def tex_layout_init_upto_spacing (t : PipeResource) (d : IloDev) : TexLayout :=
  tex_layout_init_spacing (tex_layout_init_tiling (tex_layout_init_format
    (tex_layout_init_hiz (tex_layout_start t d))))

theorem init_block_width_pos (t : PipeResource) (d : IloDev) :
    0 < (tex_layout_init t d).1.block_width :=
  blockwidth_pos ((tex_layout_init t d).1.format)

theorem init_block_size_pos (t : PipeResource) (d : IloDev) :
    0 < (tex_layout_init t d).1.block_size :=
  blocksize_pos ((tex_layout_init t d).1.format)

theorem init_levels0_w_ge (t : PipeResource) (d : IloDev) :
    (tex_layout_init t d).1.block_width ≤
      ((tex_layout_init t d).1.levels 0).w := by
  have hfold : (tex_layout_init t d).1.levels =
      (tex_layout_init_levels (tex_layout_init_upto_spacing t d)).levels := rfl
  have hbw : (tex_layout_init t d).1.block_width =
      (tex_layout_init_upto_spacing t d).block_width := rfl
  rw [hfold, hbw]
  simp only [tex_layout_init_levels]
  rw [if_pos (Nat.zero_le _)]
  exact level_dims_w_ge _ 0 (by rw [← hbw]; exact init_block_width_pos t d)

theorem pack2dW_ge (l : TexLayout) : ∀ n, (l.levels 0).w ≤ pack2dW l n := by
  intro n
  induction n with
  | zero =>
    show (l.levels 0).w ≤ max l.width ((level_pos l 0).1 + (l.levels 0).w)
    have h : (level_pos l 0).1 = 0 := rfl
    omega
  | succ n ih =>
    exact le_trans ih (le_max_left _ _)

theorem pack3dW_ge (l : TexLayout) : ∀ n, (l.levels 0).w ≤ pack3dW l n := by
  intro n
  induction n with
  | zero =>
    show (l.levels 0).w ≤ max l.width
      ((min (1 <<< 0) (l.levels 0).d - 1) * align (l.levels 0).w l.align_i +
        (l.levels 0).w)
    omega
  | succ n ih =>
    exact le_trans ih (le_max_left _ _)

theorem pack_width_ge (l : TexLayout) :
    (l.levels 0).w ≤ (tex_layout_pack l).width := by
  unfold tex_layout_pack
  split
  · simp only [tex_layout_3d]
    refine le_trans ?_ (align_width_ge _)
    exact pack3dW_ge l _
  · simp only [tex_layout_2d]
    refine le_trans ?_ (align_width_ge _)
    exact pack2dW_ge l _

theorem pipeline_bo_stride_ge (t : PipeResource) (d : IloDev) :
    64 ≤ (tex_layout_calculate_bo_size
      (tex_layout_pack (tex_layout_init t d).1)).1.bo_stride := by
  have hbw : 0 < (tex_layout_pack (tex_layout_init t d).1).block_width := by
    rw [pack_block_width]
    exact init_block_width_pos t d
  have hbs : 0 < (tex_layout_pack (tex_layout_init t d).1).block_size := by
    rw [pack_block_size]
    exact init_block_size_pos t d
  have hw : (tex_layout_pack (tex_layout_init t d).1).block_width ≤
      (tex_layout_pack (tex_layout_init t d).1).width := by
    rw [pack_block_width]
    exact le_trans (init_levels0_w_ge t d) (pack_width_ge _)
  exact calc_bo_stride_ge _ hbw hbs hw

/-- C10: after allocation sizing the stride is positive and at least 64
for every input, so the final maximum-size check never divides by zero. -/
theorem claim10_bo_stride_min (t : PipeResource) (d : IloDev) :
    0 < (tex_layout_calculate_bo_size
      (tex_layout_pack (tex_layout_init t d).1)).1.bo_stride ∧
    64 ≤ (tex_layout_calculate_bo_size
      (tex_layout_pack (tex_layout_init t d).1)).1.bo_stride := by
  have h64 := pipeline_bo_stride_ge t d
  exact ⟨by omega, h64⟩

/-- Success of the initialization stage: true exactly when the
persistent-mapping incompatibility is absent. -/
theorem init_success_iff (t : PipeResource) (d : IloDev) :
    (tex_layout_init t d).2 = true ↔
      ¬(t.flag_map_persistent = true ∧
        ((tex_layout_init t d).1.separate_stencil = true ∨
         (tex_layout_init t d).1.format = PipeFormat.s8_uint ∨
         (tex_layout_init t d).1.format ≠ t.format)) := by
  simp only [tex_layout_init]
  split
  case isTrue h => exact iff_of_false Bool.false_ne_true (not_not_intro h)
  case isFalse h => exact iff_of_true rfl h

/-- C1: the computation fails exactly when the resource requests
persistent mapping but the resolved format differs from the logical one,
separate-stencil storage was chosen, or the resolved format is the
stencil-only format, or when the final rounded allocation exceeds the
2 GiB maximum even after the tiling fallback. -/
theorem claim1_success_iff (t : PipeResource) (d : IloDev) :
    (ComputeLayout t d).2 = false ↔
      (t.flag_map_persistent = true ∧
        ((ComputeLayout t d).1.format ≠ t.format ∨
         (ComputeLayout t d).1.separate_stencil = true ∨
         (ComputeLayout t d).1.format = PipeFormat.s8_uint)) ∨
      2 ^ 31 < (ComputeLayout t d).1.bo_stride *
        (ComputeLayout t d).1.bo_height := by
  by_cases hr : (tex_layout_init t d).2 = true
  · have hA := (init_success_iff t d).1 hr
    simp only [ComputeLayout]
    rw [if_pos hr]
    simp only [calc_bo_separate_stencil, pack_separate_stencil,
      calc_bo_format, pack_format]
    have hA2 : ¬(t.flag_map_persistent = true ∧
        ((tex_layout_init t d).1.format ≠ t.format ∨
         (tex_layout_init t d).1.separate_stencil = true ∨
         (tex_layout_init t d).1.format = PipeFormat.s8_uint)) := by
      tauto
    have hsz : (tex_layout_calculate_bo_size
        (tex_layout_pack (tex_layout_init t d).1)).2 =
      decide ((tex_layout_calculate_bo_size
          (tex_layout_pack (tex_layout_init t d).1)).1.bo_height ≤
        max_resource_size / (tex_layout_calculate_bo_size
          (tex_layout_pack (tex_layout_init t d).1)).1.bo_stride) := rfl
    rw [hsz]
    have hspos : 0 < (tex_layout_calculate_bo_size
        (tex_layout_pack (tex_layout_init t d).1)).1.bo_stride := by
      have := pipeline_bo_stride_ge t d
      omega
    rw [decide_eq_false_iff_not, not_le, Nat.div_lt_iff_lt_mul hspos]
    have hcomm : (tex_layout_calculate_bo_size
        (tex_layout_pack (tex_layout_init t d).1)).1.bo_height *
      (tex_layout_calculate_bo_size
        (tex_layout_pack (tex_layout_init t d).1)).1.bo_stride =
      (tex_layout_calculate_bo_size
        (tex_layout_pack (tex_layout_init t d).1)).1.bo_stride *
      (tex_layout_calculate_bo_size
        (tex_layout_pack (tex_layout_init t d).1)).1.bo_height :=
      Nat.mul_comm _ _
    have hmax : max_resource_size = 2 ^ 31 := rfl
    constructor
    · intro h
      refine Or.inr ?_
      omega
    · intro h
      rcases h with h | h
      · exact absurd h hA2
      · omega
  · have hr' : (tex_layout_init t d).2 = false := by
      cases h : (tex_layout_init t d).2
      · rfl
      · exact absurd h hr
    have hC : t.flag_map_persistent = true ∧
        ((tex_layout_init t d).1.separate_stencil = true ∨
         (tex_layout_init t d).1.format = PipeFormat.s8_uint ∨
         (tex_layout_init t d).1.format ≠ t.format) := by
      by_contra hc
      have := (init_success_iff t d).2 hc
      rw [hr'] at this
      exact Bool.false_ne_true this
    simp only [ComputeLayout]
    rw [if_neg (by rw [hr']; exact Bool.false_ne_true)]
    refine iff_of_true rfl (Or.inl ⟨hC.1, ?_⟩)
    tauto

/-- C8: when a tiled surface fails the conservative mappable-aperture
check at its rounded dimensions, sizing falls back to linear and is
recomputed exactly once when linear is legal; when linear is not legal the
tiled dimensions are kept (only a warning is logged); and in either case
success is still decided solely by the final maximum-size check, so the
aperture condition by itself never makes the computation fail. -/
theorem claim8_aperture_fallback (l : TexLayout)
    (ht : l.tiling ≠ IntelTiling.NONE)
    (hx : mappable_gtt_size / (bo_pass_dims (bo_init l)).1 / 4 <
      (bo_pass_dims (bo_init l)).2) :
    (l.valid_tilings &&& 1 ≠ 0 →
      (tex_layout_calculate_bo_size l).1.tiling = IntelTiling.NONE ∧
      (tex_layout_calculate_bo_size l).1.bo_stride =
        (bo_pass_dims { bo_init l with tiling := IntelTiling.NONE }).1 ∧
      (tex_layout_calculate_bo_size l).1.bo_height =
        (bo_pass_dims { bo_init l with tiling := IntelTiling.NONE }).2) ∧
    (l.valid_tilings &&& 1 = 0 →
      (tex_layout_calculate_bo_size l).1.tiling = l.tiling ∧
      (tex_layout_calculate_bo_size l).1.bo_stride =
        (bo_pass_dims (bo_init l)).1 ∧
      (tex_layout_calculate_bo_size l).1.bo_height =
        (bo_pass_dims (bo_init l)).2) ∧
    (tex_layout_calculate_bo_size l).2 =
      decide ((tex_layout_calculate_bo_size l).1.bo_height ≤
        max_resource_size / (tex_layout_calculate_bo_size l).1.bo_stride) := by
  have hC : ¬(750 ≤ (bo_init l).dev.gen ∧
      (bo_init l).templ.bind.sampler_view = true ∧
      (bo_init l).tiling = IntelTiling.NONE) := by
    intro h
    exact ht h.2.2
  have hlp : bo_pad_linear (bo_init l) = bo_init l := by
    simp only [bo_pad_linear]
    rw [if_neg hC]
  have hx2 : mappable_gtt_size /
      align (bo_init l).bo_stride (bo_tile_align (bo_init l)).1 / 4 <
      align (bo_init l).bo_height (bo_tile_align (bo_init l)).2 := by
    have h := hx
    simp only [bo_pass_dims] at h
    exact h
  refine ⟨?_, ?_, rfl⟩
  · intro hv
    have hpass1 : bo_pass (bo_init l) =
        ({ bo_init l with tiling := IntelTiling.NONE }, true) := by
      simp only [bo_pass]
      rw [hlp]
      rw [if_pos ⟨ht, hx2, hv⟩]
    have hpass2 : bo_pass ({ bo_init l with tiling := IntelTiling.NONE }) =
        ({ bo_pad_linear ({ bo_init l with tiling := IntelTiling.NONE }) with
            bo_stride :=
              (bo_pass_dims ({ bo_init l with
                tiling := IntelTiling.NONE })).1
            bo_height :=
              (bo_pass_dims ({ bo_init l with
                tiling := IntelTiling.NONE })).2 }, false) := by
      rcases bo_pass_cases ({ bo_init l with tiling := IntelTiling.NONE })
        with ⟨_, hne, _⟩ | he
      · exact absurd rfl hne
      · exact he
    simp only [tex_layout_calculate_bo_size, hpass1, hpass2]
    exact ⟨rfl, rfl, rfl⟩
  · intro hv0
    have hpass1 : bo_pass (bo_init l) =
        ({ bo_init l with
            bo_stride := (bo_pass_dims (bo_init l)).1
            bo_height := (bo_pass_dims (bo_init l)).2 }, false) := by
      rcases bo_pass_cases (bo_init l) with ⟨_, _, hv⟩ | he
      · exact absurd hv0 hv
      · rw [he, hlp]
    simp only [tex_layout_calculate_bo_size, hpass1]
    exact ⟨rfl, rfl, rfl⟩

/-- A concrete oversize mode-Y layout witnessing C8: its rounded tiled
dimensions (256 by 1000000) exceed the conservative aperture bound. -/
def c8Layout : TexLayout :=
  { tex_layout_start c4Templ gen7Dev with
    block_width := 1, block_height := 1, block_size := 4,
    tiling := IntelTiling.Y, valid_tilings := 7,
    width := 64, height := 1000000 }

theorem claim8_aperture_fallback_witness :
    (c8Layout.tiling ≠ IntelTiling.NONE ∧
      mappable_gtt_size / (bo_pass_dims (bo_init c8Layout)).1 / 4 <
        (bo_pass_dims (bo_init c8Layout)).2) ∧
    ((c8Layout.valid_tilings &&& 1 ≠ 0 →
      (tex_layout_calculate_bo_size c8Layout).1.tiling = IntelTiling.NONE ∧
      (tex_layout_calculate_bo_size c8Layout).1.bo_stride =
        (bo_pass_dims { bo_init c8Layout with tiling := IntelTiling.NONE }).1 ∧
      (tex_layout_calculate_bo_size c8Layout).1.bo_height =
        (bo_pass_dims { bo_init c8Layout with
          tiling := IntelTiling.NONE }).2) ∧
    (c8Layout.valid_tilings &&& 1 = 0 →
      (tex_layout_calculate_bo_size c8Layout).1.tiling = c8Layout.tiling ∧
      (tex_layout_calculate_bo_size c8Layout).1.bo_stride =
        (bo_pass_dims (bo_init c8Layout)).1 ∧
      (tex_layout_calculate_bo_size c8Layout).1.bo_height =
        (bo_pass_dims (bo_init c8Layout)).2) ∧
    (tex_layout_calculate_bo_size c8Layout).2 =
      decide ((tex_layout_calculate_bo_size c8Layout).1.bo_height ≤
        max_resource_size /
          (tex_layout_calculate_bo_size c8Layout).1.bo_stride)) :=
  ⟨⟨by decide, by decide⟩,
   claim8_aperture_fallback c8Layout (by decide) (by decide)⟩

/-- Evaluation table for the bitwise operations on three-bit masks
(the simplifier of this toolchain does not reduce them). -/
theorem land_0_0 : (0:Nat) &&& 0 = 0 := by decide

theorem land_0_1 : (0:Nat) &&& 1 = 0 := by decide

theorem land_0_2 : (0:Nat) &&& 2 = 0 := by decide

theorem land_0_3 : (0:Nat) &&& 3 = 0 := by decide

theorem land_0_4 : (0:Nat) &&& 4 = 0 := by decide

theorem land_0_5 : (0:Nat) &&& 5 = 0 := by decide

theorem land_0_6 : (0:Nat) &&& 6 = 0 := by decide

theorem land_0_7 : (0:Nat) &&& 7 = 0 := by decide

theorem land_1_0 : (1:Nat) &&& 0 = 0 := by decide

theorem land_1_1 : (1:Nat) &&& 1 = 1 := by decide

theorem land_1_2 : (1:Nat) &&& 2 = 0 := by decide

theorem land_1_3 : (1:Nat) &&& 3 = 1 := by decide

theorem land_1_4 : (1:Nat) &&& 4 = 0 := by decide

theorem land_1_5 : (1:Nat) &&& 5 = 1 := by decide

theorem land_1_6 : (1:Nat) &&& 6 = 0 := by decide

theorem land_1_7 : (1:Nat) &&& 7 = 1 := by decide

theorem land_2_0 : (2:Nat) &&& 0 = 0 := by decide

theorem land_2_1 : (2:Nat) &&& 1 = 0 := by decide

theorem land_2_2 : (2:Nat) &&& 2 = 2 := by decide

theorem land_2_3 : (2:Nat) &&& 3 = 2 := by decide

theorem land_2_4 : (2:Nat) &&& 4 = 0 := by decide

theorem land_2_5 : (2:Nat) &&& 5 = 0 := by decide

theorem land_2_6 : (2:Nat) &&& 6 = 2 := by decide

theorem land_2_7 : (2:Nat) &&& 7 = 2 := by decide

theorem land_3_0 : (3:Nat) &&& 0 = 0 := by decide

theorem land_3_1 : (3:Nat) &&& 1 = 1 := by decide

theorem land_3_2 : (3:Nat) &&& 2 = 2 := by decide

theorem land_3_3 : (3:Nat) &&& 3 = 3 := by decide

theorem land_3_4 : (3:Nat) &&& 4 = 0 := by decide

theorem land_3_5 : (3:Nat) &&& 5 = 1 := by decide

theorem land_3_6 : (3:Nat) &&& 6 = 2 := by decide

theorem land_3_7 : (3:Nat) &&& 7 = 3 := by decide

theorem land_4_0 : (4:Nat) &&& 0 = 0 := by decide

theorem land_4_1 : (4:Nat) &&& 1 = 0 := by decide

theorem land_4_2 : (4:Nat) &&& 2 = 0 := by decide

theorem land_4_3 : (4:Nat) &&& 3 = 0 := by decide

theorem land_4_4 : (4:Nat) &&& 4 = 4 := by decide

theorem land_4_5 : (4:Nat) &&& 5 = 4 := by decide

theorem land_4_6 : (4:Nat) &&& 6 = 4 := by decide

theorem land_4_7 : (4:Nat) &&& 7 = 4 := by decide

theorem land_5_0 : (5:Nat) &&& 0 = 0 := by decide

theorem land_5_1 : (5:Nat) &&& 1 = 1 := by decide

theorem land_5_2 : (5:Nat) &&& 2 = 0 := by decide

theorem land_5_3 : (5:Nat) &&& 3 = 1 := by decide

theorem land_5_4 : (5:Nat) &&& 4 = 4 := by decide

theorem land_5_5 : (5:Nat) &&& 5 = 5 := by decide

theorem land_5_6 : (5:Nat) &&& 6 = 4 := by decide

theorem land_5_7 : (5:Nat) &&& 7 = 5 := by decide

theorem land_6_0 : (6:Nat) &&& 0 = 0 := by decide

theorem land_6_1 : (6:Nat) &&& 1 = 0 := by decide

theorem land_6_2 : (6:Nat) &&& 2 = 2 := by decide

theorem land_6_3 : (6:Nat) &&& 3 = 2 := by decide

theorem land_6_4 : (6:Nat) &&& 4 = 4 := by decide

theorem land_6_5 : (6:Nat) &&& 5 = 4 := by decide

theorem land_6_6 : (6:Nat) &&& 6 = 6 := by decide

theorem land_6_7 : (6:Nat) &&& 7 = 6 := by decide

theorem land_7_0 : (7:Nat) &&& 0 = 0 := by decide

theorem land_7_1 : (7:Nat) &&& 1 = 1 := by decide

theorem land_7_2 : (7:Nat) &&& 2 = 2 := by decide

theorem land_7_3 : (7:Nat) &&& 3 = 3 := by decide

theorem land_7_4 : (7:Nat) &&& 4 = 4 := by decide

theorem land_7_5 : (7:Nat) &&& 5 = 5 := by decide

theorem land_7_6 : (7:Nat) &&& 6 = 6 := by decide

theorem land_7_7 : (7:Nat) &&& 7 = 7 := by decide

theorem xor_7_2 : (7:Nat) ^^^ 2 = 5 := by decide

theorem xor_7_4 : (7:Nat) ^^^ 4 = 3 := by decide

/-- The restriction chain only ever clears bits of the three-bit mask. -/
theorem valid_tilings_le (l : TexLayout) : tex_layout_valid_tilings l ≤ 7 := by
  simp only [tex_layout_valid_tilings]
  (repeat' split) <;> decide

set_option maxHeartbeats 2000000 in
/-- C5: whenever the legal-tiling bitmask is non-empty, the chosen tiling
mode is a member of the stored legal mask, and among the modes the
heuristics kept the preference order is mode Y over mode X over linear. -/
theorem claim5_tiling_member (l : TexLayout)
    (h : tex_layout_valid_tilings l ≠ 0) :
    tilingBit (tex_layout_init_tiling l).tiling &&&
      (tex_layout_init_tiling l).valid_tilings ≠ 0 ∧
    (tex_layout_heuristic_tilings l (tex_layout_valid_tilings l) &&& 4 ≠ 0 →
      (tex_layout_init_tiling l).tiling = IntelTiling.Y) ∧
    (tex_layout_heuristic_tilings l (tex_layout_valid_tilings l) &&& 4 = 0 →
      tex_layout_heuristic_tilings l (tex_layout_valid_tilings l) &&& 2 ≠ 0 →
      (tex_layout_init_tiling l).tiling = IntelTiling.X) ∧
    (tex_layout_heuristic_tilings l (tex_layout_valid_tilings l) &&& 4 = 0 →
      tex_layout_heuristic_tilings l (tex_layout_valid_tilings l) &&& 2 = 0 →
      (tex_layout_init_tiling l).tiling = IntelTiling.NONE) := by
  have h7 : tex_layout_valid_tilings l ≤ 7 := valid_tilings_le l
  simp only [tex_layout_init_tiling]
  generalize hv : tex_layout_valid_tilings l = v at h h7 ⊢
  have h1 : 1 ≤ v := Nat.pos_of_ne_zero h
  interval_cases v <;>
    simp [tex_layout_heuristic_tilings, tilingBit,
      land_0_0,
      land_0_1,
      land_0_2,
      land_0_3,
      land_0_4,
      land_0_5,
      land_0_6,
      land_0_7,
      land_1_0,
      land_1_1,
      land_1_2,
      land_1_3,
      land_1_4,
      land_1_5,
      land_1_6,
      land_1_7,
      land_2_0,
      land_2_1,
      land_2_2,
      land_2_3,
      land_2_4,
      land_2_5,
      land_2_6,
      land_2_7,
      land_3_0,
      land_3_1,
      land_3_2,
      land_3_3,
      land_3_4,
      land_3_5,
      land_3_6,
      land_3_7,
      land_4_0,
      land_4_1,
      land_4_2,
      land_4_3,
      land_4_4,
      land_4_5,
      land_4_6,
      land_4_7,
      land_5_0,
      land_5_1,
      land_5_2,
      land_5_3,
      land_5_4,
      land_5_5,
      land_5_6,
      land_5_7,
      land_6_0,
      land_6_1,
      land_6_2,
      land_6_3,
      land_6_4,
      land_6_5,
      land_6_6,
      land_6_7,
      land_7_0,
      land_7_1,
      land_7_2,
      land_7_3,
      land_7_4,
      land_7_5,
      land_7_6,
      land_7_7,
      xor_7_2,
      xor_7_4] <;>
    (repeat' split) <;>
    (first | decide | (simp_all [land_0_0,
      land_0_1,
      land_0_2,
      land_0_3,
      land_0_4,
      land_0_5,
      land_0_6,
      land_0_7,
      land_1_0,
      land_1_1,
      land_1_2,
      land_1_3,
      land_1_4,
      land_1_5,
      land_1_6,
      land_1_7,
      land_2_0,
      land_2_1,
      land_2_2,
      land_2_3,
      land_2_4,
      land_2_5,
      land_2_6,
      land_2_7,
      land_3_0,
      land_3_1,
      land_3_2,
      land_3_3,
      land_3_4,
      land_3_5,
      land_3_6,
      land_3_7,
      land_4_0,
      land_4_1,
      land_4_2,
      land_4_3,
      land_4_4,
      land_4_5,
      land_4_6,
      land_4_7,
      land_5_0,
      land_5_1,
      land_5_2,
      land_5_3,
      land_5_4,
      land_5_5,
      land_5_6,
      land_5_7,
      land_6_0,
      land_6_1,
      land_6_2,
      land_6_3,
      land_6_4,
      land_6_5,
      land_6_6,
      land_6_7,
      land_7_0,
      land_7_1,
      land_7_2,
      land_7_3,
      land_7_4,
      land_7_5,
      land_7_6,
      land_7_7,
      xor_7_2,
      xor_7_4] <;> done) |
      split_ifs at *)

/-- A concrete layout with a non-empty legal mask witnessing C5. -/
def c5Layout : TexLayout :=
  { tex_layout_start c4Templ gen7Dev with block_size := 4 }

theorem claim5_tiling_member_witness :
    tex_layout_valid_tilings c5Layout ≠ 0 ∧
    (tilingBit (tex_layout_init_tiling c5Layout).tiling &&&
      (tex_layout_init_tiling c5Layout).valid_tilings ≠ 0 ∧
    (tex_layout_heuristic_tilings c5Layout
        (tex_layout_valid_tilings c5Layout) &&& 4 ≠ 0 →
      (tex_layout_init_tiling c5Layout).tiling = IntelTiling.Y) ∧
    (tex_layout_heuristic_tilings c5Layout
        (tex_layout_valid_tilings c5Layout) &&& 4 = 0 →
      tex_layout_heuristic_tilings c5Layout
        (tex_layout_valid_tilings c5Layout) &&& 2 ≠ 0 →
      (tex_layout_init_tiling c5Layout).tiling = IntelTiling.X) ∧
    (tex_layout_heuristic_tilings c5Layout
        (tex_layout_valid_tilings c5Layout) &&& 4 = 0 →
      tex_layout_heuristic_tilings c5Layout
        (tex_layout_valid_tilings c5Layout) &&& 2 = 0 →
      (tex_layout_init_tiling c5Layout).tiling = IntelTiling.NONE)) :=
  ⟨by decide, claim5_tiling_member c5Layout (by decide)⟩

/-- The pipeline state just before the alignment resolver runs. -/
def tex_layout_init_upto_levels (t : PipeResource) (d : IloDev) : TexLayout :=
  tex_layout_init_levels (tex_layout_init_upto_spacing t d)

/-- The pipeline state just before the qpitch calculator runs. -/
def tex_layout_init_upto_alignments (t : PipeResource) (d : IloDev) :
    TexLayout :=
  tex_layout_init_alignments (tex_layout_init_upto_levels t d)

/-- The alignment resolver's invariant, for any layout whose block
parameters are consistent with its resolved format. -/
theorem alignments_invariant (l : TexLayout)
    (hc : l.compressed = util_format_is_compressed l.format)
    (hbw : l.block_width = util_format_get_blockwidth l.format)
    (hbh : l.block_height = util_format_get_blockheight l.format) :
    (∃ a, (tex_layout_init_alignments l).align_i = 2 ^ a) ∧
    (∃ b, (tex_layout_init_alignments l).align_j = 2 ^ b) ∧
    (tex_layout_init_alignments l).align_i % l.block_width = 0 ∧
    (tex_layout_init_alignments l).align_j % l.block_height = 0 := by
  refine ⟨?_, ?_, ?_, ?_⟩ <;>
    cases hfm : l.format <;>
      simp [tex_layout_init_alignments, hfm, hc, hbw, hbh,
        util_format_is_compressed, util_format_get_blockwidth,
        util_format_get_blockheight] <;>
      (repeat' split) <;>
      first
        | exact ⟨1, rfl⟩
        | exact ⟨2, rfl⟩
        | exact ⟨3, rfl⟩
        | rfl

/-- C6: for every input, the computed alignment units are powers of two,
align_i is an exact multiple of the block width, and align_j is an exact
multiple of the block height (the invariant assertions of the alignment
resolver hold). -/
theorem claim6_alignment_invariants (t : PipeResource) (d : IloDev) :
    (∃ a, (tex_layout_init t d).1.align_i = 2 ^ a) ∧
    (∃ b, (tex_layout_init t d).1.align_j = 2 ^ b) ∧
    (tex_layout_init t d).1.align_i % (tex_layout_init t d).1.block_width =
      0 ∧
    (tex_layout_init t d).1.align_j % (tex_layout_init t d).1.block_height =
      0 := by
  have e1 : (tex_layout_init t d).1.align_i =
      (tex_layout_init_alignments (tex_layout_init_upto_levels t d)).align_i :=
    rfl
  have e2 : (tex_layout_init t d).1.align_j =
      (tex_layout_init_alignments (tex_layout_init_upto_levels t d)).align_j :=
    rfl
  have e3 : (tex_layout_init t d).1.block_width =
      (tex_layout_init_upto_levels t d).block_width := rfl
  have e4 : (tex_layout_init t d).1.block_height =
      (tex_layout_init_upto_levels t d).block_height := rfl
  rw [e1, e2, e3, e4]
  exact alignments_invariant (tex_layout_init_upto_levels t d) rfl rfl rfl

/-- The pipeline state just before the spacing resolver runs. -/
def tex_layout_init_upto_tiling (t : PipeResource) (d : IloDev) : TexLayout :=
  tex_layout_init_tiling (tex_layout_init_format
    (tex_layout_init_hiz (tex_layout_start t d)))

/-- The format resolver never yields the compressed format it remaps. -/
theorem resolved_format_ne_etc1 (t : PipeResource) (d : IloDev) :
    (tex_layout_init t d).1.format ≠ PipeFormat.etc1_rgb8 := by
  have e : (tex_layout_init t d).1.format =
      (tex_layout_init_format (tex_layout_init_hiz
        (tex_layout_start t d))).format := rfl
  rw [e]
  cases hfm : t.format <;>
    simp [tex_layout_init_format, tex_layout_init_hiz, tex_layout_start,
      hfm] <;>
    split <;> simp

/-- On generation 6, full array spacing implies the resolved format is not
the stencil-only format. -/
theorem gen6_full_spacing_ne_s8 (t : PipeResource) (d : IloDev)
    (hg : d.gen = 600)
    (hf : (tex_layout_init t d).1.array_spacing_full = true) :
    (tex_layout_init t d).1.format ≠ PipeFormat.s8_uint := by
  have e : (tex_layout_init t d).1.array_spacing_full =
      (if 700 ≤ d.gen then
        (if (tex_layout_init_upto_tiling t d).has_depth = true ∨
            (tex_layout_init_upto_tiling t d).has_stencil = true then true
         else decide (0 < t.last_level))
       else decide ((tex_layout_init_upto_tiling t d).format ≠
         PipeFormat.s8_uint)) := rfl
  rw [e, hg] at hf
  rw [if_neg (by omega : ¬ 700 ≤ 600)] at hf
  exact of_decide_eq_true hf

/-- The alignment resolver yields a vertical unit of 4 on generation 6
for any multisampled layout whose resolved format is neither the
stencil-only format nor the remapped compressed one. -/
theorem alignments_j_gen6 (l : TexLayout)
    (hc : l.compressed = util_format_is_compressed l.format)
    (hbh : l.block_height = util_format_get_blockheight l.format)
    (hg : l.dev.gen = 600) (hs : 1 < l.templ.nr_samples)
    (hns : l.format ≠ PipeFormat.s8_uint)
    (hetc : l.format ≠ PipeFormat.etc1_rgb8) :
    (tex_layout_init_alignments l).align_j = 4 := by
  cases hfm : l.format <;>
    simp_all [tex_layout_init_alignments, util_format_is_compressed,
      util_format_get_blockheight]

/-- On generation 6 with more than one sample and full array spacing the
resolved vertical alignment unit is always 4. -/
theorem gen6_msaa_align_j (t : PipeResource) (d : IloDev)
    (hg : d.gen = 600) (hs : 1 < t.nr_samples)
    (hf : (tex_layout_init t d).1.array_spacing_full = true) :
    (tex_layout_init t d).1.align_j = 4 := by
  have e : (tex_layout_init t d).1.align_j =
      (tex_layout_init_alignments (tex_layout_init_upto_levels t d)).align_j :=
    rfl
  rw [e]
  refine alignments_j_gen6 _ rfl rfl ?_ ?_ ?_ ?_
  · exact hg
  · exact hs
  · exact gen6_full_spacing_ne_s8 t d hg hf
  · exact resolved_format_ne_etc1 t d

/-- C3: for full array spacing with more than one layer, qpitch is the
two-level formula with tail constant 12 on generation 7 and newer and 11
on generation 6, and the generation 6 multisample erratum adds exactly one
vertical-alignment-unit's worth of rows. -/
theorem claim3_qpitch_formula (t : PipeResource) (d : IloDev)
    (ha : 1 < t.array_size)
    (hf : (tex_layout_init t d).1.array_spacing_full = true) :
    (tex_layout_init t d).1.qpitch =
      align ((tex_layout_init t d).1.levels 0).h
        (tex_layout_init t d).1.align_j +
      align ((tex_layout_init t d).1.levels 1).h
        (tex_layout_init t d).1.align_j +
      (if 700 ≤ d.gen then 12 else 11) * (tex_layout_init t d).1.align_j +
      (if d.gen = 600 ∧ 1 < t.nr_samples ∧ t.height0 % 4 = 1
       then (tex_layout_init t d).1.align_j else 0) := by
  have e : (tex_layout_init t d).1.qpitch =
      (tex_layout_init_qpitch (tex_layout_init_upto_alignments t d)).qpitch :=
    rfl
  have e2 : (tex_layout_init t d).1.levels =
      (tex_layout_init_upto_alignments t d).levels := rfl
  have e3 : (tex_layout_init t d).1.align_j =
      (tex_layout_init_upto_alignments t d).align_j := rfl
  have etempl : (tex_layout_init_upto_alignments t d).templ = t := rfl
  have edev : (tex_layout_init_upto_alignments t d).dev = d := rfl
  have hf2 : (tex_layout_init_upto_alignments t d).array_spacing_full =
      true := hf
  rw [e]
  simp only [tex_layout_init_qpitch, etempl, edev]
  rw [if_neg (by omega : ¬ t.array_size ≤ 1)]
  rw [if_neg (by simp [hf2])]
  simp only [e2, e3]
  congr 1
  by_cases hcnd : d.gen = 600 ∧ 1 < t.nr_samples ∧ t.height0 % 4 = 1
  · rw [if_pos hcnd, if_pos hcnd]
    rw [← e3]
    rw [gen6_msaa_align_j t d hcnd.1 hcnd.2.1 hf]
  · rw [if_neg hcnd, if_neg hcnd]

/-- A four-layer depth resource on tier 7 witnessing C3 (full array
spacing holds for depth formats there). -/
def c3Templ : PipeResource :=
  { target := .tex_2d, format := .z32_float, width0 := 16, height0 := 16,
    depth0 := 1, last_level := 0, array_size := 4, nr_samples := 1,
    bind := { noBindFlags with depth_stencil := true },
    usage_staging := false, flag_map_persistent := false }

theorem claim3_qpitch_formula_witness :
    (1 < c3Templ.array_size ∧
      (tex_layout_init c3Templ gen7Dev).1.array_spacing_full = true) ∧
    (tex_layout_init c3Templ gen7Dev).1.qpitch =
      align ((tex_layout_init c3Templ gen7Dev).1.levels 0).h
        (tex_layout_init c3Templ gen7Dev).1.align_j +
      align ((tex_layout_init c3Templ gen7Dev).1.levels 1).h
        (tex_layout_init c3Templ gen7Dev).1.align_j +
      (if 700 ≤ gen7Dev.gen then 12 else 11) *
        (tex_layout_init c3Templ gen7Dev).1.align_j +
      (if gen7Dev.gen = 600 ∧ 1 < c3Templ.nr_samples ∧
          c3Templ.height0 % 4 = 1
       then (tex_layout_init c3Templ gen7Dev).1.align_j else 0) :=
  ⟨⟨by decide, by decide⟩,
   claim3_qpitch_formula c3Templ gen7Dev (by decide) (by decide)⟩

end Ilo
